import Mathlib

set_option maxRecDepth 100000

/-!
Verification of the liquidator's core data model and algorithms, shallowly
embedded from the Rust source.  Modelling conventions:

* On-chain addresses (`Pubkey`, and base-58 `String` addresses from the
  market catalog) are modelled as natural-number identifiers (`Pk`);
  `Pubkey::to_string` is injective, so address comparison behaves identically.
* `rust_decimal::Decimal` is modelled as exact rationals (`ℚ`): the health
  math is decimal fixed-point, and every claim here concerns its exact value.
* Machine integers (`u8`/`u64`/`u128`) are modelled as `Nat`; signed oracle
  fields (`i64`/`i32`) decode into `Int` by two's complement.
* Fallible operations return `Option`/`Except`; a Rust panic is a distinct
  observable outcome where it matters (`PythResult.panicked`).
-/

namespace Liquidator

/-- Addresses (on-chain pubkeys and their base-58 renderings) as abstract
identifiers. -/
abbrev Pk := Nat

/-- `WAD = 10^18`, from `src/utils.rs` / `src/models/reserve.rs`. -/
def WAD : Nat := 1000000000000000000

/-! ## `src/models/last_update.rs` -/

/-- `LastUpdate`: slot plus stale flag. -/
structure LastUpdate where
  slot : Nat
  stale : Bool
deriving Repr, DecidableEq

/-- `LastUpdate::is_zero`: true iff the slot is zero. -/
def LastUpdate.is_zero (lu : LastUpdate) : Bool :=
  lu.slot == 0

/-! ## `src/models/reserve.rs`: data model -/

/-- `ReserveLiquidity` sub-record. -/
structure ReserveLiquidity where
  mint_pubkey : Pk
  mint_decimals : Nat
  supply_pubkey : Pk
  pyth_oracle_pubkey : Pk
  switchboard_oracle_pubkey : Pk
  available_amount : Nat
  borrowed_amount_wads : Nat
  cumulative_borrow_rate_wads : Nat
  market_price : Nat
deriving Repr, DecidableEq

/-- `ReserveCollateral` sub-record. -/
structure ReserveCollateral where
  mint_pubkey : Pk
  mint_total_supply : Nat
  supply_pubkey : Pk
deriving Repr, DecidableEq

/-- `ReserveFees` sub-record. -/
structure ReserveFees where
  borrow_fee_wad : Nat
  flash_loan_fee_wad : Nat
  host_fee_percentage : Nat
deriving Repr, DecidableEq

/-- `ReserveConfig` sub-record. -/
structure ReserveConfig where
  optimal_utilization_rate : Nat
  loan_to_value_ratio : Nat
  liquidation_bonus : Nat
  liquidation_threshold : Nat
  min_borrow_rate : Nat
  optimal_borrow_rate : Nat
  max_borrow_rate : Nat
  fees : ReserveFees
  deposit_limit : Nat
  borrow_limit : Nat
  fee_receiver : Pk
deriving Repr, DecidableEq

/-- `Reserve`: on-chain reserve account state. -/
structure Reserve where
  version : Nat
  last_update : LastUpdate
  lending_market : Pk
  liquidity : ReserveLiquidity
  collateral : ReserveCollateral
  config : ReserveConfig
deriving Repr, DecidableEq

/-- The reserve's total liquidity, `available_amount · W + borrowed_amount_wads`,
as computed inside `Reserve::get_collateral_exchange_rate`. -/
def Reserve.total_liquidity (r : Reserve) : ℚ :=
  (r.liquidity.available_amount : ℚ) * (WAD : ℚ) + (r.liquidity.borrowed_amount_wads : ℚ)

/-- `Reserve::get_collateral_exchange_rate`. -/
def Reserve.get_collateral_exchange_rate (r : Reserve) : ℚ :=
  if r.collateral.mint_total_supply = 0 ∨ r.total_liquidity = 0 then
    (WAD : ℚ)
  else
    ((r.collateral.mint_total_supply : ℚ) * (WAD : ℚ)) / r.total_liquidity

/-- `Reserve::get_loan_to_value_rate`. -/
def Reserve.get_loan_to_value_rate (r : Reserve) : ℚ :=
  (r.config.loan_to_value_ratio : ℚ) / 100

/-- `Reserve::get_liquidation_threshold_rate`. -/
def Reserve.get_liquidation_threshold_rate (r : Reserve) : ℚ :=
  (r.config.liquidation_threshold : ℚ) / 100

/-! ## `src/models/obligation.rs`: data model -/

/-- `ObligationCollateral`: one deposit entry. -/
structure ObligationCollateral where
  deposit_reserve : Pk
  deposited_amount : Nat
  market_value : Nat
deriving Repr, DecidableEq

/-- `ObligationLiquidity`: one borrow entry. -/
structure ObligationLiquidity where
  borrow_reserve : Pk
  cumulative_borrow_rate_wads : Nat
  borrowed_amount_wads : Nat
  market_value : Nat
deriving Repr, DecidableEq

/-- `Obligation`: on-chain obligation account state. -/
structure Obligation where
  version : Nat
  last_update : LastUpdate
  lending_market : Pk
  owner : Pk
  deposited_value : Nat
  borrowed_value : Nat
  allowed_borrow_value : Nat
  unhealthy_borrow_value : Nat
  deposits : List ObligationCollateral
  borrows : List ObligationLiquidity
deriving Repr, DecidableEq

/-! ## `src/oracle/pyth.rs`: oracle data -/

/-- `TokenOracleData`.  `decimals` stores `10^decimals` of the liquidity
token, exactly as built in `get_token_oracle_data`. -/
structure TokenOracleData where
  symbol : Nat
  reserve_address : Pk
  mint_address : Pk
  decimals : Nat
  price : ℚ
deriving Repr, DecidableEq

/-! ## `src/liquidation/refresh.rs` -/

/-- `RefreshedDeposit`. -/
structure RefreshedDeposit where
  deposit_reserve : Pk
  deposited_amount : Nat
  market_value : ℚ
  symbol : Nat
  mint_address : Pk
deriving Repr, DecidableEq

/-- `RefreshedBorrow`. -/
structure RefreshedBorrow where
  borrow_reserve : Pk
  borrowed_amount_wads : Nat
  market_value : ℚ
  symbol : Nat
  mint_address : Pk
deriving Repr, DecidableEq

/-- `RefreshedObligation`. -/
structure RefreshedObligation where
  borrowed_value : ℚ
  unhealthy_borrow_value : ℚ
  deposits : List RefreshedDeposit
  borrows : List RefreshedBorrow
deriving Repr, DecidableEq

/-- Lookup in the `HashMap` the source builds from the `(address, reserve)`
list: later duplicate keys overwrite earlier ones, so look from the end. -/
def reserveMapLookup (reserves : List (Pk × Reserve)) (addr : Pk) : Option Reserve :=
  (reserves.reverse.find? (fun p => p.1 == addr)).map Prod.snd

/-- `oracle_data.values().find(|o| o.mint_address == mint_addr)`, with the
oracle map materialised as a list. -/
def oracleFindByMint (oracles : List TokenOracleData) (mint_addr : Pk) :
    Option TokenOracleData :=
  oracles.find? (fun o => o.mint_address == mint_addr)

/-- Body of the deposits loop of `calculate_refreshed_obligation`: for one
deposit entry, either `none` (reserve or oracle unresolved, entry skipped) or
the refreshed deposit together with its contributions to
`total_allowed_borrow_value` and `total_unhealthy_borrow_value`. -/
def processDeposit (reserves : List (Pk × Reserve)) (oracles : List TokenOracleData)
    (deposit : ObligationCollateral) : Option (RefreshedDeposit × ℚ × ℚ) :=
  match reserveMapLookup reserves deposit.deposit_reserve with
  | none => none
  | some reserve =>
    let mint_addr := reserve.liquidity.mint_pubkey
    match oracleFindByMint oracles mint_addr with
    | none => none
    | some oracle =>
      let exchange_rate := reserve.get_collateral_exchange_rate
      let liquidity_amount : ℚ := (deposit.deposited_amount : ℚ) / exchange_rate
      let market_value : ℚ := liquidity_amount * oracle.price / (oracle.decimals : ℚ)
      let allowed : ℚ := market_value * reserve.get_loan_to_value_rate
      let unhealthy : ℚ := market_value * reserve.get_liquidation_threshold_rate
      some ({ deposit_reserve := deposit.deposit_reserve
              deposited_amount := deposit.deposited_amount
              market_value := market_value
              symbol := oracle.symbol
              mint_address := mint_addr }, allowed, unhealthy)

/-- Body of the borrows loop of `calculate_refreshed_obligation`. -/
def processBorrow (reserves : List (Pk × Reserve)) (oracles : List TokenOracleData)
    (borrow : ObligationLiquidity) : Option RefreshedBorrow :=
  match reserveMapLookup reserves borrow.borrow_reserve with
  | none => none
  | some reserve =>
    let mint_addr := reserve.liquidity.mint_pubkey
    match oracleFindByMint oracles mint_addr with
    | none => none
    | some oracle =>
      let borrowed_amount : ℚ := (borrow.borrowed_amount_wads : ℚ) / (WAD : ℚ)
      let market_value : ℚ := borrowed_amount * oracle.price / (oracle.decimals : ℚ)
      some { borrow_reserve := borrow.borrow_reserve
             borrowed_amount_wads := borrow.borrowed_amount_wads
             market_value := market_value
             symbol := oracle.symbol
             mint_address := mint_addr }

/-- `calculate_refreshed_obligation`.  The Rust accumulates the totals with
`+=` inside the two loops over exact decimals; over `ℚ` that accumulation
equals the sum of the per-entry contributions of the retained entries.
The Rust function returns `Ok` unconditionally, so no error case is modelled. -/
def calculate_refreshed_obligation (obligation : Obligation)
    (reserves : List (Pk × Reserve)) (oracles : List TokenOracleData) :
    RefreshedObligation :=
  let dres := obligation.deposits.filterMap (processDeposit reserves oracles)
  let bres := obligation.borrows.filterMap (processBorrow reserves oracles)
  { borrowed_value := (bres.map (fun b => b.market_value)).sum
    unhealthy_borrow_value := (dres.map (fun d => d.2.2)).sum
    deposits := dres.map (fun d => d.1)
    borrows := bres }

/-- `RefreshedObligation::is_unhealthy`:
`self.borrowed_value > self.unhealthy_borrow_value`. -/
def RefreshedObligation.is_unhealthy (o : RefreshedObligation) : Bool :=
  decide (o.borrowed_value > o.unhealthy_borrow_value)

/-- Rust `Iterator::max_by` with the comparison `(v a).cmp(v b)`, folded from
the left over the list; on `Ordering::Equal` the later element wins (this is
`core::cmp::max_by`, which returns its second argument on ties). -/
def rustMaxByValue {α : Type} (v : α → ℚ) (l : List α) : Option α :=
  l.foldl
    (fun acc x =>
      match acc with
      | none => some x
      | some a => if v x < v a then some a else some x)
    none

/-- `RefreshedObligation::select_repay_borrow`:
`self.borrows.iter().max_by(|a, b| a.market_value.cmp(&b.market_value))`. -/
def RefreshedObligation.select_repay_borrow (o : RefreshedObligation) :
    Option RefreshedBorrow :=
  rustMaxByValue (fun b => b.market_value) o.borrows

/-- `RefreshedObligation::select_withdraw_deposit`. -/
def RefreshedObligation.select_withdraw_deposit (o : RefreshedObligation) :
    Option RefreshedDeposit :=
  rustMaxByValue (fun d => d.market_value) o.deposits

/-! ## `src/oracle/pyth.rs`: `parse_price_from_account` -/

/-- Little-endian byte-list to unsigned value. -/
def leBytesToNat (bs : List Nat) : Nat :=
  bs.foldr (fun b acc => b + 256 * acc) 0

/-- `i64::from_le_bytes` on an 8-byte slice (two's complement). -/
def i64FromLeBytes (bs : List Nat) : Int :=
  let u := leBytesToNat bs
  if u < 2 ^ 63 then (u : Int) else (u : Int) - 2 ^ 64

/-- `i32::from_le_bytes` on a 4-byte slice (two's complement). -/
def i32FromLeBytes (bs : List Nat) : Int :=
  let u := leBytesToNat bs
  if u < 2 ^ 31 then (u : Int) else (u : Int) - 2 ^ 32

/-- Outcome of `parse_price_from_account`: `Ok(price)`, `Err(..)`, or a Rust
panic (out-of-range slice index, `Decimal` overflow, division by zero). -/
inductive PythResult where
  | ok (price : ℚ)
  | err
  | panicked
deriving Repr, DecidableEq

/-- The signed 64-bit little-endian price at byte offset 208
(`i64::from_le_bytes(data[208..216])`). -/
def pythPriceField (data : List Nat) : Int :=
  i64FromLeBytes ((data.drop 208).take 8)

/-- The signed 32-bit little-endian exponent at byte offset 216
(`i32::from_le_bytes(data[216..220])`). -/
def pythExpoField (data : List Nat) : Int :=
  i32FromLeBytes ((data.drop 216).take 4)

/-- Two's-complement wrap of a natural number into the `i64` range, as
release-mode (overflow-checks off) Rust integer arithmetic produces. -/
def wrapI64 (n : Nat) : Int :=
  if n % 2 ^ 64 < 2 ^ 63 then ((n % 2 ^ 64 : Nat) : Int)
  else ((n % 2 ^ 64 : Nat) : Int) - 2 ^ 64

/-- `10i64.pow(expo.abs() as u32)` under release semantics: the pow loop's
wrapping multiplications compose to the wrap of the full power (reduction mod
`2^64` is a ring homomorphism), so the result is `wrapI64 (10 ^ absExpo)`.
For `absExpo ≥ 19` the value wraps (a debug build would panic at the first
overflowing multiplication instead); note `expo.abs() as u32` itself equals
`expo.natAbs` in release mode for every `i32`, including `i32::MIN`. -/
def pow10WrappedI64 (absExpo : Nat) : Int :=
  wrapI64 (10 ^ absExpo)

/-- `rust_decimal`'s 96-bit mantissa capacity: `Mul` panics when the exact
product of two scale-0 integers exceeds it. -/
def DECIMAL_MAX : Nat := 2 ^ 96 - 1

/-- `parse_price_from_account`.  The source checks `data.len() < 200` first,
then immediately slices `data[208..216]` and `data[216..220]`; the
`data.len() < 220` guard only comes after those slice expressions, so for
lengths in `[200, 220)` the slicing panics before the guard runs (the guard is
dead: when control reaches it the length is already ≥ 220).  The exponent
`10i64.pow(expo.abs() as u32)` is computed with wrapping (release) integer
arithmetic — `pow10WrappedI64` — so it is negative or zero for `|expo| ≥ 19`.
A zero wrapped exponent makes the negative-exponent branch's `Decimal`
division panic (division by zero, `|expo| ≥ 64`); in the non-negative-exponent
branch `Decimal` multiplication panics when the exact product exceeds the
96-bit capacity.  Otherwise the final price is rejected iff negative
(`is_sign_negative`, whose value equals the exact sign of the quotient or
product). -/
def parse_price_from_account (data : List Nat) : PythResult :=
  if data.length < 200 then .err
  else if data.length < 216 then .panicked
  else if data.length < 220 then .panicked
  else if data.length < 220 then .err
  else if pythExpoField data < 0 then
    if pow10WrappedI64 (pythExpoField data).natAbs = 0 then .panicked
    else if (pythPriceField data : ℚ) / (pow10WrappedI64 (pythExpoField data).natAbs : ℚ) < 0
      then .err
    else .ok ((pythPriceField data : ℚ) / (pow10WrappedI64 (pythExpoField data).natAbs : ℚ))
  else
    if (pythPriceField data * pow10WrappedI64 (pythExpoField data).natAbs).natAbs > DECIMAL_MAX
      then .panicked
    else if (pythPriceField data : ℚ) * (pow10WrappedI64 (pythExpoField data).natAbs : ℚ) < 0
      then .err
    else .ok ((pythPriceField data : ℚ) * (pow10WrappedI64 (pythExpoField data).natAbs : ℚ))

/-! ## `src/models/reserve.rs`: `Reserve::parse` (Borsh decode)

Byte-level reader for the Borsh deserialization the derive produces: fields in
declaration order, integers little-endian, `Pubkey` as 32 raw bytes, `bool` as
one byte that must be `0` or `1`.  `Self::deserialize(&mut &data[..])` does
not require the buffer to be fully consumed. -/

/-- Read `n` raw bytes. -/
def readBytes (n : Nat) (bs : List Nat) : Option (List Nat × List Nat) :=
  if n ≤ bs.length then some (bs.take n, bs.drop n) else none

/-- Read a `u8`. -/
def readU8 (bs : List Nat) : Option (Nat × List Nat) :=
  match bs with
  | [] => none
  | b :: rest => some (b, rest)

/-- Read a little-endian `u64`. -/
def readU64 (bs : List Nat) : Option (Nat × List Nat) :=
  (readBytes 8 bs).map (fun p => (leBytesToNat p.1, p.2))

/-- Read a little-endian `u128`. -/
def readU128 (bs : List Nat) : Option (Nat × List Nat) :=
  (readBytes 16 bs).map (fun p => (leBytesToNat p.1, p.2))

/-- Read a 32-byte `Pubkey` (represented by its value as an identifier). -/
def readPubkey (bs : List Nat) : Option (Pk × List Nat) :=
  (readBytes 32 bs).map (fun p => (leBytesToNat p.1, p.2))

/-- Read a Borsh `bool`: one byte, `0` or `1`, anything else fails. -/
def readBool (bs : List Nat) : Option (Bool × List Nat) :=
  match bs with
  | [] => none
  | b :: rest =>
    if b = 0 then some (false, rest)
    else if b = 1 then some (true, rest)
    else none

/-- Borsh `LastUpdate::deserialize`. -/
def LastUpdate.deserialize (bs : List Nat) : Option (LastUpdate × List Nat) := do
  let (slot, bs) ← readU64 bs
  let (stale, bs) ← readBool bs
  pure ({ slot := slot, stale := stale }, bs)

/-- Borsh `ReserveLiquidity::deserialize`. -/
def ReserveLiquidity.deserialize (bs : List Nat) :
    Option (ReserveLiquidity × List Nat) := do
  let (mint_pubkey, bs) ← readPubkey bs
  let (mint_decimals, bs) ← readU8 bs
  let (supply_pubkey, bs) ← readPubkey bs
  let (pyth_oracle_pubkey, bs) ← readPubkey bs
  let (switchboard_oracle_pubkey, bs) ← readPubkey bs
  let (available_amount, bs) ← readU64 bs
  let (borrowed_amount_wads, bs) ← readU128 bs
  let (cumulative_borrow_rate_wads, bs) ← readU128 bs
  let (market_price, bs) ← readU128 bs
  pure ({ mint_pubkey := mint_pubkey, mint_decimals := mint_decimals
          supply_pubkey := supply_pubkey, pyth_oracle_pubkey := pyth_oracle_pubkey
          switchboard_oracle_pubkey := switchboard_oracle_pubkey
          available_amount := available_amount
          borrowed_amount_wads := borrowed_amount_wads
          cumulative_borrow_rate_wads := cumulative_borrow_rate_wads
          market_price := market_price }, bs)

/-- Borsh `ReserveCollateral::deserialize`. -/
def ReserveCollateral.deserialize (bs : List Nat) :
    Option (ReserveCollateral × List Nat) := do
  let (mint_pubkey, bs) ← readPubkey bs
  let (mint_total_supply, bs) ← readU64 bs
  let (supply_pubkey, bs) ← readPubkey bs
  pure ({ mint_pubkey := mint_pubkey, mint_total_supply := mint_total_supply
          supply_pubkey := supply_pubkey }, bs)

/-- Borsh `ReserveFees::deserialize`. -/
def ReserveFees.deserialize (bs : List Nat) : Option (ReserveFees × List Nat) := do
  let (borrow_fee_wad, bs) ← readU64 bs
  let (flash_loan_fee_wad, bs) ← readU64 bs
  let (host_fee_percentage, bs) ← readU8 bs
  pure ({ borrow_fee_wad := borrow_fee_wad, flash_loan_fee_wad := flash_loan_fee_wad
          host_fee_percentage := host_fee_percentage }, bs)

/-- Borsh `ReserveConfig::deserialize`. -/
def ReserveConfig.deserialize (bs : List Nat) :
    Option (ReserveConfig × List Nat) := do
  let (optimal_utilization_rate, bs) ← readU8 bs
  let (loan_to_value_ratio, bs) ← readU8 bs
  let (liquidation_bonus, bs) ← readU8 bs
  let (liquidation_threshold, bs) ← readU8 bs
  let (min_borrow_rate, bs) ← readU8 bs
  let (optimal_borrow_rate, bs) ← readU8 bs
  let (max_borrow_rate, bs) ← readU8 bs
  let (fees, bs) ← ReserveFees.deserialize bs
  let (deposit_limit, bs) ← readU64 bs
  let (borrow_limit, bs) ← readU64 bs
  let (fee_receiver, bs) ← readPubkey bs
  pure ({ optimal_utilization_rate := optimal_utilization_rate
          loan_to_value_ratio := loan_to_value_ratio
          liquidation_bonus := liquidation_bonus
          liquidation_threshold := liquidation_threshold
          min_borrow_rate := min_borrow_rate
          optimal_borrow_rate := optimal_borrow_rate
          max_borrow_rate := max_borrow_rate
          fees := fees, deposit_limit := deposit_limit
          borrow_limit := borrow_limit, fee_receiver := fee_receiver }, bs)

/-- Borsh `Reserve::deserialize`. -/
def Reserve.deserialize (bs : List Nat) : Option (Reserve × List Nat) := do
  let (version, bs) ← readU8 bs
  let (last_update, bs) ← LastUpdate.deserialize bs
  let (lending_market, bs) ← readPubkey bs
  let (liquidity, bs) ← ReserveLiquidity.deserialize bs
  let (collateral, bs) ← ReserveCollateral.deserialize bs
  let (config, bs) ← ReserveConfig.deserialize bs
  pure ({ version := version, last_update := last_update
          lending_market := lending_market, liquidity := liquidity
          collateral := collateral, config := config }, bs)

/-- `RESERVE_SIZE`. -/
def RESERVE_SIZE : Nat := 619

/-- How `Reserve::parse` can fail: the explicit size check, or a Borsh
deserialization failure (both are `io::Error`s with distinct messages). -/
inductive ReserveParseError where
  | invalidDataSize
  | deserializeFailed
deriving Repr, DecidableEq

/-- `Reserve::parse`: reject slices shorter than `RESERVE_SIZE`, then Borsh
deserialize from the front of the slice. -/
def Reserve.parse (data : List Nat) : Except ReserveParseError Reserve :=
  if data.length < RESERVE_SIZE then .error .invalidDataSize
  else
    match Reserve.deserialize data with
    | some (r, _) => .ok r
    | none => .error .deserializeFailed

/-! ## `src/rpc.rs`: `SolendRpcClient::get_reserves` (post-fetch processing)

The RPC fetch itself is I/O; the claim-relevant part is the loop that parses
each returned account and keeps only reserves whose `last_update` slot is
non-zero. -/

/-- The parse-and-filter loop of `get_reserves` over the fetched
`(pubkey, account_data)` pairs. -/
def processReserveAccounts (accounts : List (Pk × List Nat)) :
    List (Pk × Reserve) :=
  accounts.filterMap
    (fun pa =>
      match Reserve.parse pa.2 with
      | .ok reserve => if reserve.last_update.is_zero then none else some (pa.1, reserve)
      | .error _ => none)

/-! ## `src/models/market.rs`: market catalog configuration -/

/-- `LiquidityToken` (the fields the core consumes; symbols as identifiers). -/
structure LiquidityToken where
  decimals : Nat
  mint : Pk
  symbol : Nat
deriving Repr, DecidableEq

/-- `MarketConfigReserve`. -/
structure MarketConfigReserve where
  liquidity_token : LiquidityToken
  pyth_oracle : Pk
  switchboard_oracle : Pk
  address : Pk
  collateral_mint_address : Pk
  collateral_supply_address : Pk
  liquidity_address : Pk
  liquidity_fee_receiver_address : Pk
  user_supply_cap : Nat
deriving Repr, DecidableEq

/-- `MarketConfig` (the fields the core consumes). -/
structure MarketConfig where
  address : Pk
  authority_address : Pk
  reserves : List MarketConfigReserve
deriving Repr, DecidableEq

/-- `MarketConfig::find_reserve`: first reserve whose token symbol matches. -/
def MarketConfig.find_reserve (m : MarketConfig) (symbol : Nat) :
    Option MarketConfigReserve :=
  m.reserves.find? (fun r => r.liquidity_token.symbol == symbol)

/-! ## `src/liquidation/instructions.rs` and `src/liquidation/execute.rs` -/

/-- `solana_sdk::instruction::AccountMeta`. -/
structure AccountMeta where
  pubkey : Pk
  is_signer : Bool
  is_writable : Bool
deriving Repr, DecidableEq

/-- `AccountMeta::new` (writable, non-signer unless stated). -/
def AccountMeta.new (pk : Pk) (signer : Bool) : AccountMeta :=
  { pubkey := pk, is_signer := signer, is_writable := true }

/-- `AccountMeta::new_readonly`. -/
def AccountMeta.new_readonly (pk : Pk) (signer : Bool) : AccountMeta :=
  { pubkey := pk, is_signer := signer, is_writable := false }

/-- `solana_sdk::instruction::Instruction`. -/
structure Instruction where
  program_id : Pk
  accounts : List AccountMeta
  data : List Nat
deriving Repr, DecidableEq

/-- Distinct identifiers for the fixed program addresses used by the
assembler (`get_program_id`, the clock sysvar, the SPL token program).  The
concrete base-58 strings are irrelevant to the claims; only their identity
matters. -/
def PROGRAM_ID_PRODUCTION : Pk := 1000000001
def PROGRAM_ID_BETA : Pk := 1000000002
def PROGRAM_ID_STAGING : Pk := 1000000003
def CLOCK_SYSVAR_ID : Pk := 1000000004
def SPL_TOKEN_ID : Pk := 1000000005

/-- Deployment environments recognised by `get_program_id`; `other` stands
for every unrecognised tag. -/
inductive Env where
  | production
  | beta
  | staging
  | other
deriving Repr, DecidableEq

/-- `get_program_id`: unrecognised tags fall through to production.  (The
`Pubkey::from_str` of a hard-coded constant cannot fail, so it is total.) -/
def get_program_id (env : Env) : Pk :=
  match env with
  | .production => PROGRAM_ID_PRODUCTION
  | .beta => PROGRAM_ID_BETA
  | .staging => PROGRAM_ID_STAGING
  | .other => PROGRAM_ID_PRODUCTION

/-- `u64::to_le_bytes`. -/
def u64ToLeBytes (n : Nat) : List Nat :=
  [n % 256, n / 256 % 256, n / 256 ^ 2 % 256, n / 256 ^ 3 % 256,
   n / 256 ^ 4 % 256, n / 256 ^ 5 % 256, n / 256 ^ 6 % 256, n / 256 ^ 7 % 256]

/-- `spl_associated_token_account::get_associated_token_address`: a
deterministic, injective derivation from `(wallet, mint)`. -/
def get_associated_token_address (wallet mint : Pk) : Pk :=
  Nat.pair wallet mint

/-- `refresh_reserve_instruction`: discriminator byte 3; accounts
reserve (writable), pyth oracle (read-only), switchboard oracle (read-only). -/
def refresh_reserve_instruction (env : Env)
    (reserve pyth_oracle switchboard_oracle : Pk) : Instruction :=
  { program_id := get_program_id env
    accounts :=
      [AccountMeta.new reserve false,
       AccountMeta.new_readonly pyth_oracle false,
       AccountMeta.new_readonly switchboard_oracle false]
    data := [3] }

/-- `refresh_obligation_instruction`: discriminator byte 7; accounts
obligation (writable), clock sysvar (read-only), then the deposit reserves,
then the borrow reserves, all read-only and in the given order. -/
def refresh_obligation_instruction (env : Env) (obligation : Pk)
    (deposit_reserves borrow_reserves : List Pk) : Instruction :=
  { program_id := get_program_id env
    accounts :=
      [AccountMeta.new obligation false,
       AccountMeta.new_readonly CLOCK_SYSVAR_ID false]
        ++ deposit_reserves.map (fun r => AccountMeta.new_readonly r false)
        ++ borrow_reserves.map (fun r => AccountMeta.new_readonly r false)
    data := [7] }

/-- `liquidate_and_redeem_instruction`: discriminator byte 12 followed by the
little-endian `u64` liquidity amount; sixteen accounts in the source's order. -/
def liquidate_and_redeem_instruction (env : Env) (liquidity_amount : Nat)
    (repay_account withdraw_collateral_account withdraw_liquidity_account
     repay_reserve repay_reserve_liquidity withdraw_reserve
     withdraw_reserve_collateral_mint withdraw_reserve_collateral_supply
     withdraw_reserve_liquidity withdraw_reserve_liquidity_fee_receiver
     obligation lending_market lending_market_authority
     user_transfer_authority : Pk) : Instruction :=
  { program_id := get_program_id env
    accounts :=
      [AccountMeta.new repay_reserve_liquidity false,
       AccountMeta.new withdraw_reserve_collateral_supply false,
       AccountMeta.new withdraw_reserve_liquidity false,
       AccountMeta.new repay_account false,
       AccountMeta.new withdraw_collateral_account false,
       AccountMeta.new withdraw_liquidity_account false,
       AccountMeta.new repay_reserve false,
       AccountMeta.new withdraw_reserve false,
       AccountMeta.new obligation false,
       AccountMeta.new_readonly lending_market false,
       AccountMeta.new_readonly lending_market_authority false,
       AccountMeta.new_readonly user_transfer_authority true,
       AccountMeta.new_readonly CLOCK_SYSVAR_ID false,
       AccountMeta.new_readonly SPL_TOKEN_ID false,
       AccountMeta.new withdraw_reserve_collateral_mint false,
       AccountMeta.new withdraw_reserve_liquidity_fee_receiver false]
    data := 12 :: u64ToLeBytes liquidity_amount }

/-- The de-duplicated reserve addresses of the obligation's deposits followed
by its borrows, as collected into the `HashSet` in `liquidate_and_redeem`.
The set's iteration order is arbitrary; `dedup` fixes one representative
order, which no claim depends on. -/
def uniqueReserves (obligation : Obligation) : List Pk :=
  ((obligation.deposits.map (fun d => d.deposit_reserve))
    ++ obligation.borrows.map (fun b => b.borrow_reserve)).dedup

/-- The refresh-reserve loop of `liquidate_and_redeem`: for each unique
reserve address, find its market configuration (erroring if absent, as the
source's `ok_or_else` does) and emit a `RefreshReserve` instruction. -/
def buildRefreshReserveIxs (env : Env) (market : MarketConfig) :
    List Pk → Except Unit (List Instruction)
  | [] => .ok []
  | addr :: rest =>
    match market.reserves.find? (fun r => r.address == addr) with
    | none => .error ()
    | some rc =>
      match buildRefreshReserveIxs env market rest with
      | .error e => .error e
      | .ok tl =>
        .ok (refresh_reserve_instruction env addr rc.pyth_oracle rc.switchboard_oracle :: tl)

/-- The pure instruction-assembly part of `liquidate_and_redeem` (everything
before the blockhash fetch, signing and submission): the list of instructions
placed in the transaction, or an error when a referenced reserve or token
symbol is absent from the market configuration.  Note that the source binds
`obligation_pubkey` to `obligation.lending_market` (its own comment reads
"This should be the obligation pubkey"). -/
def liquidate_and_redeem_assemble (env : Env) (payer : Pk)
    (liquidity_amount : Nat) (repay_token_symbol withdraw_token_symbol : Nat)
    (market : MarketConfig) (obligation : Obligation) :
    Except Unit (List Instruction) :=
  match buildRefreshReserveIxs env market (uniqueReserves obligation) with
  | .error e => .error e
  | .ok refresh_ixs =>
    let deposit_reserves := obligation.deposits.map (fun d => d.deposit_reserve)
    let borrow_reserves := obligation.borrows.map (fun b => b.borrow_reserve)
    let obligation_pubkey := obligation.lending_market
    let refresh_obligation_ix :=
      refresh_obligation_instruction env obligation_pubkey deposit_reserves borrow_reserves
    match market.find_reserve repay_token_symbol with
    | none => .error ()
    | some repay_reserve =>
      match market.find_reserve withdraw_token_symbol with
      | none => .error ()
      | some withdraw_reserve =>
        let repay_account :=
          get_associated_token_address payer repay_reserve.liquidity_token.mint
        let withdraw_collateral_account :=
          get_associated_token_address payer withdraw_reserve.collateral_mint_address
        let withdraw_liquidity_account :=
          get_associated_token_address payer withdraw_reserve.liquidity_token.mint
        let liquidate_ix :=
          liquidate_and_redeem_instruction env liquidity_amount
            repay_account withdraw_collateral_account withdraw_liquidity_account
            repay_reserve.address repay_reserve.liquidity_address
            withdraw_reserve.address withdraw_reserve.collateral_mint_address
            withdraw_reserve.collateral_supply_address
            withdraw_reserve.liquidity_address
            withdraw_reserve.liquidity_fee_receiver_address
            obligation_pubkey market.address market.authority_address payer
        .ok (refresh_ixs ++ [refresh_obligation_ix, liquidate_ix])

/-! ## Concrete instances used by witnesses and counterexamples -/

/-- The all-zero reserve, as decoded from an all-zero byte slice. -/
def zeroReserve : Reserve :=
  { version := 0, last_update := { slot := 0, stale := false }, lending_market := 0
    liquidity :=
      { mint_pubkey := 0, mint_decimals := 0, supply_pubkey := 0
        pyth_oracle_pubkey := 0, switchboard_oracle_pubkey := 0
        available_amount := 0, borrowed_amount_wads := 0
        cumulative_borrow_rate_wads := 0, market_price := 0 }
    collateral := { mint_pubkey := 0, mint_total_supply := 0, supply_pubkey := 0 }
    config :=
      { optimal_utilization_rate := 0, loan_to_value_ratio := 0
        liquidation_bonus := 0, liquidation_threshold := 0, min_borrow_rate := 0
        optimal_borrow_rate := 0, max_borrow_rate := 0
        fees := { borrow_fee_wad := 0, flash_loan_fee_wad := 0, host_fee_percentage := 0 }
        deposit_limit := 0, borrow_limit := 0, fee_receiver := 0 } }

/-- A reserve with non-zero collateral supply and liquidity. -/
def c5Reserve : Reserve :=
  { version := 1, last_update := { slot := 10, stale := false }, lending_market := 7
    liquidity :=
      { mint_pubkey := 11, mint_decimals := 6, supply_pubkey := 12
        pyth_oracle_pubkey := 13, switchboard_oracle_pubkey := 14
        available_amount := 3, borrowed_amount_wads := 0
        cumulative_borrow_rate_wads := 0, market_price := 0 }
    collateral := { mint_pubkey := 15, mint_total_supply := 2, supply_pubkey := 16 }
    config :=
      { optimal_utilization_rate := 80, loan_to_value_ratio := 50
        liquidation_bonus := 5, liquidation_threshold := 55, min_borrow_rate := 0
        optimal_borrow_rate := 0, max_borrow_rate := 0
        fees := { borrow_fee_wad := 0, flash_loan_fee_wad := 0, host_fee_percentage := 0 }
        deposit_limit := 0, borrow_limit := 0, fee_receiver := 17 } }

/-- Two refreshed borrows tied at the maximum market value. -/
def c2Borrow1 : RefreshedBorrow :=
  { borrow_reserve := 1, borrowed_amount_wads := 0, market_value := 5
    symbol := 0, mint_address := 0 }

def c2Borrow2 : RefreshedBorrow :=
  { borrow_reserve := 2, borrowed_amount_wads := 0, market_value := 5
    symbol := 0, mint_address := 0 }

def c2Refreshed : RefreshedObligation :=
  { borrowed_value := 0, unhealthy_borrow_value := 0, deposits := []
    borrows := [c2Borrow1, c2Borrow2] }

/-- Two deposit entries for the permutation witness. -/
def c6Dep1 : ObligationCollateral :=
  { deposit_reserve := 100, deposited_amount := 10, market_value := 0 }

def c6Dep2 : ObligationCollateral :=
  { deposit_reserve := 101, deposited_amount := 20, market_value := 0 }

def c6Ob : Obligation :=
  { version := 1, last_update := { slot := 5, stale := false }, lending_market := 900
    owner := 70, deposited_value := 0, borrowed_value := 0
    allowed_borrow_value := 0, unhealthy_borrow_value := 0
    deposits := [c6Dep1, c6Dep2], borrows := [] }

/-- An obligation with one deposit (reserve 100) and one borrow (reserve 200),
whose lending market is address 900. -/
def exOb : Obligation :=
  { version := 1, last_update := { slot := 5, stale := false }, lending_market := 900
    owner := 70, deposited_value := 0, borrowed_value := 0
    allowed_borrow_value := 0, unhealthy_borrow_value := 0
    deposits := [{ deposit_reserve := 100, deposited_amount := 10, market_value := 0 }]
    borrows := [{ borrow_reserve := 200, cumulative_borrow_rate_wads := 0
                  borrowed_amount_wads := 50, market_value := 0 }] }

/-- Market configuration covering reserves 100 (symbol 1) and 200 (symbol 2). -/
def exMarket : MarketConfig :=
  { address := 900, authority_address := 901
    reserves :=
      [{ liquidity_token := { decimals := 9, mint := 31, symbol := 1 }
         pyth_oracle := 41, switchboard_oracle := 51, address := 100
         collateral_mint_address := 61, collateral_supply_address := 62
         liquidity_address := 63, liquidity_fee_receiver_address := 64
         user_supply_cap := 0 },
       { liquidity_token := { decimals := 6, mint := 32, symbol := 2 }
         pyth_oracle := 42, switchboard_oracle := 52, address := 200
         collateral_mint_address := 71, collateral_supply_address := 72
         liquidity_address := 73, liquidity_fee_receiver_address := 74
         user_supply_cap := 0 }] }

/-- The instruction list assembled for `exMarket`/`exOb` (repay symbol 2,
withdraw symbol 1, payer 77, amount 5). -/
def exIxs : List Instruction :=
  (liquidate_and_redeem_assemble .production 77 5 2 1 exMarket exOb).toOption.getD []

/-- A 619-byte all-zero account payload (decodes to `zeroReserve`, slot 0). -/
def c10Data : List Nat := List.replicate 619 0

/-- Claim C1: for every `RefreshedObligation`, `is_unhealthy` returns `true`
iff `borrowed_value` is strictly greater than `unhealthy_borrow_value`; in
particular at exact equality the obligation is judged healthy. -/
theorem is_unhealthy_iff_strictly_greater (o : RefreshedObligation) :
    (o.is_unhealthy = true ↔ o.borrowed_value > o.unhealthy_borrow_value) ∧
    (o.borrowed_value = o.unhealthy_borrow_value → o.is_unhealthy = false) := by
  constructor
  · simp [RefreshedObligation.is_unhealthy]
  · intro h
    simp [RefreshedObligation.is_unhealthy, h]

/-- Witness for C1 at the boundary: equal values give a healthy obligation. -/
theorem is_unhealthy_iff_strictly_greater_witness :
    ({ borrowed_value := 5, unhealthy_borrow_value := 5, deposits := [], borrows := [] } :
      RefreshedObligation).is_unhealthy = false :=
  (is_unhealthy_iff_strictly_greater _).2 rfl

/-- Claim C5: `get_collateral_exchange_rate` equals
`mint_total_supply · W / (available_amount · W + borrowed_amount_wads)` when
both the collateral mint supply and the total liquidity are non-zero, equals
`W` when either is zero, and is non-negative in all cases. -/
theorem collateral_exchange_rate_spec (r : Reserve) :
    (r.collateral.mint_total_supply ≠ 0 → r.total_liquidity ≠ 0 →
      r.get_collateral_exchange_rate =
        (r.collateral.mint_total_supply : ℚ) * (WAD : ℚ) / r.total_liquidity) ∧
    (r.collateral.mint_total_supply = 0 ∨ r.total_liquidity = 0 →
      r.get_collateral_exchange_rate = (WAD : ℚ)) ∧
    0 ≤ r.get_collateral_exchange_rate := by
  refine ⟨?_, ?_, ?_⟩
  · intro h1 h2
    have hcond : ¬ (r.collateral.mint_total_supply = 0 ∨ r.total_liquidity = 0) := by
      push_neg
      exact ⟨h1, h2⟩
    unfold Reserve.get_collateral_exchange_rate
    rw [if_neg hcond]
  · intro h
    unfold Reserve.get_collateral_exchange_rate
    rw [if_pos h]
  · unfold Reserve.get_collateral_exchange_rate
    split
    · positivity
    · apply div_nonneg
      · positivity
      · unfold Reserve.total_liquidity
        positivity

/-- The witness reserve has non-zero total liquidity (`3 · W`). -/
theorem c5Reserve_total_liquidity_ne_zero : c5Reserve.total_liquidity ≠ 0 := by
  norm_num [Reserve.total_liquidity, c5Reserve, WAD]

/-- Witness for C5: the non-degenerate branch at a concrete reserve. -/
theorem collateral_exchange_rate_spec_witness :
    c5Reserve.get_collateral_exchange_rate =
      (c5Reserve.collateral.mint_total_supply : ℚ) * (WAD : ℚ) / c5Reserve.total_liquidity :=
  (collateral_exchange_rate_spec c5Reserve).1 (by decide) c5Reserve_total_liquidity_ne_zero

/-- Claim C4 (code bug): `parse_price_from_account` slices bytes `208..216`
and `216..220` before its `len < 220` guard, so on any account whose data
length lies in `[200, 220)` it panics with an out-of-range slice index
instead of returning an error; only lengths below 200 take the early error
return. -/
theorem parse_price_panics_on_short_data :
    parse_price_from_account (List.replicate 210 0) = .panicked ∧
    (List.replicate 210 0).length < 220 ∧
    parse_price_from_account (List.replicate 199 0) = .err := by
  exact ⟨by decide, by decide, by decide⟩

/-- Claim C8 (amended): `Reserve::parse` fails with the corrupt-account size
error exactly when the slice is shorter than 619 bytes; longer slices are not
rejected for size. -/
theorem reserve_parse_size_error_iff (data : List Nat) :
    Reserve.parse data = .error .invalidDataSize ↔ data.length < RESERVE_SIZE := by
  unfold Reserve.parse
  split
  · rename_i hlt
    simp only [hlt, iff_true]
  · rename_i hge
    constructor
    · intro hc
      exfalso
      rcases hdes : Reserve.deserialize data with _ | ⟨r, rest⟩
      · rw [hdes] at hc
        simp at hc
      · rw [hdes] at hc
        simp at hc
    · intro hlt
      exact absurd hlt hge

/-- Witness for C8: the empty slice is rejected for size. -/
theorem reserve_parse_size_error_iff_witness :
    Reserve.parse [] = .error .invalidDataSize :=
  (reserve_parse_size_error_iff []).2 (by decide)

/-- C8 counterexample: a 620-byte all-zero slice does not have length 619,
yet `Reserve::parse` decodes it successfully (Borsh ignores trailing bytes). -/
theorem reserve_parse_accepts_620_bytes :
    (List.replicate 620 0).length ≠ 619 ∧
    Reserve.parse (List.replicate 620 0) = .ok zeroReserve :=
  ⟨by decide, rfl⟩

/-- Claim C10: every reserve in the result of `get_reserves`'s parse-and-keep
loop has a non-zero `last_update` slot; a reserve that decodes successfully
with slot 0 is dropped from the result. -/
theorem get_reserves_drop_zero_slot (accounts : List (Pk × List Nat)) :
    (∀ pr ∈ processReserveAccounts accounts, pr.2.last_update.slot ≠ 0) ∧
    (∀ pk data r, (pk, data) ∈ accounts → Reserve.parse data = .ok r →
      r.last_update.slot = 0 → (pk, r) ∉ processReserveAccounts accounts) := by
  have hmain : ∀ pr ∈ processReserveAccounts accounts, pr.2.last_update.slot ≠ 0 := by
    intro pr hpr
    unfold processReserveAccounts at hpr
    rw [List.mem_filterMap] at hpr
    obtain ⟨pa, hmem, hf⟩ := hpr
    split at hf
    · split at hf
      · cases hf
      · cases hf
        rename_i reserve heq hz
        simpa [LastUpdate.is_zero] using hz
    · cases hf
  refine ⟨hmain, ?_⟩
  intro pk data r hmem hparse hslot hcontra
  exact hmain (pk, r) hcontra hslot

/-- Witness for C10: the all-zero reserve (slot 0) decoded from a 619-byte
account is not in the processed result. -/
theorem get_reserves_drop_zero_slot_witness :
    ((5 : Pk), zeroReserve) ∉ processReserveAccounts [(5, c10Data)] :=
  (get_reserves_drop_zero_slot [(5, c10Data)]).2 5 c10Data zeroReserve
    (List.mem_singleton.mpr rfl) rfl rfl

/-- On a non-empty list, the Rust `max_by` fold returns an element attaining
the maximum of `v` such that every element strictly after it is strictly
below it: the last maximal element. -/
theorem rustMaxByValue_last_max {α : Type} (v : α → ℚ) (l : List α) (h : l ≠ []) :
    ∃ x l₁ l₂, l = l₁ ++ x :: l₂ ∧ rustMaxByValue v l = some x ∧
      (∀ y ∈ l, v y ≤ v x) ∧ (∀ y ∈ l₂, v y < v x) := by
  induction l using List.reverseRecOn with
  | nil => exact absurd rfl h
  | append_singleton l a ih =>
    rcases eq_or_ne l [] with rfl | hl
    · exact ⟨a, [], [], by simp, by simp [rustMaxByValue], by simp, by simp⟩
    · obtain ⟨x, l₁, l₂, hsplit, hsel, hmax, hafter⟩ := ih hl
      have hstep : rustMaxByValue v (l ++ [a]) =
          if v a < v x then some x else some a := by
        unfold rustMaxByValue at hsel ⊢
        rw [List.foldl_append, hsel]
        rfl
      by_cases hc : v a < v x
      · refine ⟨x, l₁, l₂ ++ [a], ?_, ?_, ?_, ?_⟩
        · rw [hsplit]
          simp
        · rw [hstep, if_pos hc]
        · intro y hy
          rcases List.mem_append.mp hy with hy | hy
          · exact hmax y hy
          · rw [List.mem_singleton.mp hy]
            exact le_of_lt hc
        · intro y hy
          rcases List.mem_append.mp hy with hy | hy
          · exact hafter y hy
          · rw [List.mem_singleton.mp hy]
            exact hc
      · have hxa : v x ≤ v a := not_lt.mp hc
        refine ⟨a, l, [], rfl, ?_, ?_, ?_⟩
        · rw [hstep, if_neg hc]
        · intro y hy
          rcases List.mem_append.mp hy with hy | hy
          · exact le_trans (hmax y hy) hxa
          · rw [List.mem_singleton.mp hy]
        · intro y hy
          cases hy

/-- Claim C2 (amended): `select_repay_borrow` returns a borrow with the
maximum `market_value` and `select_withdraw_deposit` a deposit with the
maximum `market_value`; when several entries tie at the maximum, the LAST
occurrence in list order is returned (Rust `max_by` keeps the later element
on ties), not the first. -/
theorem select_repay_and_withdraw_last_max (o : RefreshedObligation) :
    (o.borrows ≠ [] → ∃ x l₁ l₂, o.borrows = l₁ ++ x :: l₂ ∧
      o.select_repay_borrow = some x ∧
      (∀ y ∈ o.borrows, y.market_value ≤ x.market_value) ∧
      (∀ y ∈ l₂, y.market_value < x.market_value)) ∧
    (o.deposits ≠ [] → ∃ x l₁ l₂, o.deposits = l₁ ++ x :: l₂ ∧
      o.select_withdraw_deposit = some x ∧
      (∀ y ∈ o.deposits, y.market_value ≤ x.market_value) ∧
      (∀ y ∈ l₂, y.market_value < x.market_value)) :=
  ⟨fun h => rustMaxByValue_last_max _ o.borrows h,
   fun h => rustMaxByValue_last_max _ o.deposits h⟩

/-- C2 counterexample: with two distinct borrows tied at the maximum market
value, `select_repay_borrow` returns the SECOND (last) occurrence, not the
first as the claim states. -/
theorem select_repay_borrow_returns_last_on_tie :
    c2Borrow1.market_value = c2Borrow2.market_value ∧
    c2Borrow1 ≠ c2Borrow2 ∧
    c2Refreshed.borrows = [c2Borrow1, c2Borrow2] ∧
    c2Refreshed.select_repay_borrow = some c2Borrow2 ∧
    c2Refreshed.select_repay_borrow ≠ some c2Borrow1 :=
  ⟨rfl, by decide, rfl, by decide, by decide⟩

/-- Witness for C2's amended statement at a concrete obligation. -/
theorem select_repay_and_withdraw_last_max_witness :
    ∃ x l₁ l₂, c2Refreshed.borrows = l₁ ++ x :: l₂ ∧
      c2Refreshed.select_repay_borrow = some x ∧
      (∀ y ∈ c2Refreshed.borrows, y.market_value ≤ x.market_value) ∧
      (∀ y ∈ l₂, y.market_value < x.market_value) :=
  (select_repay_and_withdraw_last_max c2Refreshed).1 (by decide)

/-- Claim C6: `is_unhealthy` of the refreshed obligation is invariant under
any permutation of the obligation's deposits list and borrows list. -/
theorem is_unhealthy_perm_invariant (obligation : Obligation)
    (reserves : List (Pk × Reserve)) (oracles : List TokenOracleData)
    (deposits' : List ObligationCollateral) (borrows' : List ObligationLiquidity)
    (hd : obligation.deposits.Perm deposits') (hb : obligation.borrows.Perm borrows') :
    (calculate_refreshed_obligation
        { obligation with deposits := deposits', borrows := borrows' }
        reserves oracles).is_unhealthy =
      (calculate_refreshed_obligation obligation reserves oracles).is_unhealthy := by
  have hdp :=
    ((hd.filterMap (processDeposit reserves oracles)).map (fun d => d.2.2)).sum_eq
  have hbp :=
    ((hb.filterMap (processBorrow reserves oracles)).map (fun b => b.market_value)).sum_eq
  unfold calculate_refreshed_obligation RefreshedObligation.is_unhealthy
  dsimp only
  rw [← hdp, ← hbp]

/-- Witness for C6: swapping the two deposits preserves `is_unhealthy`. -/
theorem is_unhealthy_perm_invariant_witness :
    (calculate_refreshed_obligation
        { c6Ob with deposits := [c6Dep2, c6Dep1], borrows := [] } [] []).is_unhealthy =
      (calculate_refreshed_obligation c6Ob [] []).is_unhealthy :=
  is_unhealthy_perm_invariant c6Ob [] [] [c6Dep2, c6Dep1] [] (by decide) (by decide)

/-- A successful refresh-reserve loop yields one instruction per input
address, each carrying discriminator byte 3. -/
theorem buildRefreshReserveIxs_ok (env : Env) (market : MarketConfig) :
    ∀ (rs : List Pk) (ixs : List Instruction),
      buildRefreshReserveIxs env market rs = .ok ixs →
      ixs.length = rs.length ∧ ∀ ix ∈ ixs, ix.data = [3] := by
  intro rs
  induction rs with
  | nil =>
    intro ixs h
    unfold buildRefreshReserveIxs at h
    cases h
    exact ⟨rfl, by simp⟩
  | cons addr rest ih =>
    intro ixs h
    unfold buildRefreshReserveIxs at h
    rcases hfind : market.reserves.find? (fun r => r.address == addr) with _ | rc
    · rw [hfind] at h
      cases h
    · rw [hfind] at h
      rcases hrec : buildRefreshReserveIxs env market rest with e | tl
      · rw [hrec] at h
        cases h
      · rw [hrec] at h
        cases h
        obtain ⟨hlen, hall⟩ := ih tl hrec
        refine ⟨by simp [hlen], ?_⟩
        intro ix hix
        rcases List.mem_cons.mp hix with rfl | hix
        · rfl
        · exact hall ix hix

/-- The de-duplicated reserve list has as many entries as the union of the
deposit-reserve and borrow-reserve address sets. -/
theorem uniqueReserves_length (obligation : Obligation) :
    (uniqueReserves obligation).length =
      ((obligation.deposits.map (fun d => d.deposit_reserve)).toFinset ∪
        (obligation.borrows.map (fun b => b.borrow_reserve)).toFinset).card := by
  rw [← List.toFinset_append, List.card_toFinset]
  rfl

/-- Claim C9: in every successfully assembled liquidation transaction, the
number of RefreshReserve instructions (discriminator byte 3) equals the
number of distinct reserve addresses in the union of the obligation's deposit
reserves and borrow reserves. -/
theorem refresh_reserve_count (env : Env) (payer : Pk) (liquidity_amount : Nat)
    (repay_sym withdraw_sym : Nat) (market : MarketConfig) (obligation : Obligation)
    (ixs : List Instruction)
    (h : liquidate_and_redeem_assemble env payer liquidity_amount repay_sym
          withdraw_sym market obligation = .ok ixs) :
    ixs.countP (fun ix => ix.data == [3]) =
      ((obligation.deposits.map (fun d => d.deposit_reserve)).toFinset ∪
        (obligation.borrows.map (fun b => b.borrow_reserve)).toFinset).card := by
  unfold liquidate_and_redeem_assemble at h
  rcases hbuild : buildRefreshReserveIxs env market (uniqueReserves obligation)
    with e | refresh_ixs
  · rw [hbuild] at h
    cases h
  · rw [hbuild] at h
    rcases hrep : market.find_reserve repay_sym with _ | repay_reserve
    · rw [hrep] at h
      cases h
    · rw [hrep] at h
      rcases hwit : market.find_reserve withdraw_sym with _ | withdraw_reserve
      · rw [hwit] at h
        cases h
      · rw [hwit] at h
        cases h
        obtain ⟨hlen, hall⟩ := buildRefreshReserveIxs_ok env market _ _ hbuild
        have hfull : List.countP (fun ix => ix.data == [3]) refresh_ixs =
            refresh_ixs.length :=
          List.countP_eq_length.mpr (fun ix hix => by simp [hall ix hix])
        simp only [List.countP_append, List.countP_cons, List.countP_nil,
          refresh_obligation_instruction, liquidate_and_redeem_instruction]
        rw [hfull, hlen, uniqueReserves_length]
        simp

/-- Witness for C9: two refresh-reserve instructions for the two distinct
reserves of the concrete obligation. -/
theorem refresh_reserve_count_witness :
    exIxs.countP (fun ix => ix.data == [3]) =
      ((exOb.deposits.map (fun d => d.deposit_reserve)).toFinset ∪
        (exOb.borrows.map (fun b => b.borrow_reserve)).toFinset).card :=
  refresh_reserve_count .production 77 5 2 1 exMarket exOb exIxs rfl

/-- Claim C3 (code bug): the assembled transaction's single instruction with
discriminator 7 (RefreshObligation) has the clock sysvar second and the
deposit reserves and then the borrow reserves read-only in the obligation's
original order, but its first (writable) account is the obligation's
`lending_market` field — the market address — because `liquidate_and_redeem`
never receives the obligation account's own address (the source's own comment
on the binding reads "This should be the obligation pubkey"). -/
theorem refresh_obligation_first_account_is_market_address :
    liquidate_and_redeem_assemble .production 77 5 2 1 exMarket exOb = .ok exIxs ∧
    exIxs.filter (fun ix => ix.data == [7]) =
      [{ program_id := PROGRAM_ID_PRODUCTION
         accounts :=
           [AccountMeta.new exOb.lending_market false,
            AccountMeta.new_readonly CLOCK_SYSVAR_ID false,
            AccountMeta.new_readonly 100 false,
            AccountMeta.new_readonly 200 false]
         data := [7] }] ∧
    exOb.lending_market = exMarket.address :=
  ⟨rfl, by decide, rfl⟩

end Liquidator
